import Mathlib

/-
Shallow embedding of src/src/claun/core/executor.py (the claun Process
Executor core).

Modelling conventions:
* Python strings are Lean String values; character-level operations work
  on String.data, the list of characters.
* Python truthiness of an Optional[str] value (None and the empty string
  are falsy) is pyTruthy.
* line.strip() is pyStrip, restricted to the ASCII whitespace characters
  that can occur in the outputs the claims range over.
* line.replace of a hyphen by the empty string removes every hyphen, so
  it is embedded as the character filter removeHyphens.
* str.isalnum is pyIsAlnum: the string is nonempty and every character is
  alphanumeric (restricted to the ASCII alphanumeric characters).
* output.split on a newline is pySplitLines, which like the Python method
  keeps empty pieces and returns one piece for the empty string.
* line.rstrip of a newline is rstripNL, dropping every trailing newline.
* The subprocess is the environment: a SpawnOutcome is either one of the
  spawn errors, or the complete behaviour of a spawned process, namely
  the decoded text lines that readline yields on stdout and on stderr in
  read order, and the final return code (None when unavailable). The
  decoding step (utf-8 with replacement) happens before these lines, so
  the model receives them as strings.
* run returns, besides the Except value that the Python coroutine
  produces by returning or raising, the observable effects: the cached
  session id after the call, the mode the log file was opened with (some
  mode string exactly when the file was opened), the list of individual
  writes to the log file (each one immediately followed by a flush), and
  the list of callback invocations in order. Wall-clock duration is
  environmental and is not modelled.
-/

namespace Claun

/- Truthiness of a Python Optional[str]: None and the empty string are falsy. -/
def pyTruthy : Option String → Bool
  | none => false
  | some s => !(s == "")

/- The ASCII whitespace characters stripped by str.strip(). -/
def isPyWhitespace (c : Char) : Bool :=
  c == ' ' || c == '\t' || c == '\n' || c == '\r' || c == '\x0b' || c == '\x0c'

/- line.strip(): drop leading and trailing whitespace. -/
def pyStrip (s : String) : String :=
  String.mk (((s.data.dropWhile isPyWhitespace).reverse.dropWhile isPyWhitespace).reverse)

/- line.replace of a hyphen by the empty string: remove every hyphen. -/
def removeHyphens (s : String) : String :=
  String.mk (s.data.filter (fun c => !(c == '-')))

/- str.isalnum(): nonempty and every character alphanumeric. -/
def pyIsAlnum (s : String) : Bool :=
  !s.data.isEmpty && s.data.all Char.isAlphanum

/- Helper for pySplitLines: split a character list at newlines, keeping
the piece accumulated so far (in reverse) in acc. -/
def splitNLAux : List Char → List Char → List String
  | [], acc => [String.mk acc.reverse]
  | c :: cs, acc =>
    if c = '\n' then String.mk acc.reverse :: splitNLAux cs []
    else splitNLAux cs (c :: acc)

/- output.split on a newline, Python semantics: empty pieces are kept. -/
def pySplitLines (s : String) : List String :=
  splitNLAux s.data []

/- line.rstrip of a newline: drop every trailing newline character. -/
def rstripNL (s : String) : String :=
  String.mk ((s.data.reverse.dropWhile (fun c => c == '\n')).reverse)

/- The Executor state at the start of a run call: the constructor
arguments session_name and passthrough, and the mutable cached session
identifier _session_id (None until a first run caches one). -/
structure Executor where
  session_name : Option String
  passthrough : Bool
  _session_id : Option String

/- ExecutionResult, without the environmental duration_seconds field. -/
structure ExecutionResult where
  output : String
  exit_code : Int
  session_id : Option String
  error_output : String

/- How a run call can fail: an ExecutionError raised by the two handled
spawn failures, or an unhandled error that propagates unclassified. -/
inductive RunError where
  | executionError (msg : String)
  | unclassified (msg : String)

/- The behaviour of a successfully spawned subprocess: the decoded lines
readline yields on each stream in read order, and the return code. -/
structure SpawnBehavior where
  stdoutLines : List String
  stderrLines : List String
  returncode : Option Int

/- The response of the environment to the spawn attempt. -/
inductive SpawnOutcome where
  | ok (b : SpawnBehavior)
  | fileNotFound
  | permissionDenied
  | otherError (msg : String)

/- Everything observable about one run call. -/
structure RunResult where
  result : Except RunError ExecutionResult
  newSessionId : Option String
  logOpenMode : Option String
  logWrites : List String
  callbackCalls : List String

/- The single-quote character, written by code point to keep source
messages verbatim. -/
def singleQuote : String := String.mk [Char.ofNat 39]

/- Message of the ExecutionError raised on FileNotFoundError. -/
def notFoundMsg : String :=
  "Claude Code not found. Please ensure " ++ singleQuote ++ "claude" ++ singleQuote ++
    " is installed and in PATH."

/- Message of the ExecutionError raised on PermissionError. -/
def permissionDeniedMsg : String :=
  "Permission denied when running Claude Code."

/- Executor._build_args. -/
def _build_args (e : Executor) (command : String) (first_run resume : Bool) : List String :=
  let args := ["claude", "--print", command]
  if pyTruthy e.session_name then
    if first_run then
      args ++ ["--print-session-id"]
    else if resume && pyTruthy e._session_id then
      args ++ ["--session", e._session_id.getD ""]
    else
      args
  else
    args

/- The per-line test inside Executor._extract_session_id, applied to the
already stripped line. -/
def isSessionIdCandidate (line : String) : Bool :=
  decide (10 < line.length) && decide (line.length < 100) && pyIsAlnum (removeHyphens line)

/- The loop of Executor._extract_session_id over the split lines. -/
def extractGo : List String → Option String
  | [] => none
  | l :: ls =>
    let line := pyStrip l
    if isSessionIdCandidate line then some line else extractGo ls

/- Executor._extract_session_id. -/
def _extract_session_id (output : String) : Option String :=
  extractGo (pySplitLines output)

/- The stdout readline loop of Executor.run: one iteration per line, in
read order. Returns the accumulated output_lines, the callback
invocations (made when passthrough holds and a callback was supplied),
and the writes to the log file (made when a log file was supplied). -/
def readStdoutLoop (cb logS : Bool) : List String → List String × List String × List String
  | [] => ([], [], [])
  | line :: rest =>
    let r := readStdoutLoop cb logS rest
    (line :: r.1,
     if cb then rstripNL line :: r.2.1 else r.2.1,
     if logS then line :: r.2.2 else r.2.2)

/- The stderr readline loop of Executor.run: returns the accumulated
error_lines and the log writes, each line written with the stderr marker. -/
def readStderrLoop (logS : Bool) : List String → List String × List String
  | [] => ([], [])
  | line :: rest =>
    let r := readStderrLoop logS rest
    (line :: r.1,
     if logS then ("[stderr] " ++ line) :: r.2 else r.2)

/- Executor.run. The argument list is built first and handed to the
spawn; the SpawnOutcome argument is the response of the environment to
that spawn attempt. On a spawn error the log file has not been opened
yet, nothing was read or written, and the cached id is untouched. -/
def run (e : Executor) (command : String) (first_run resume : Bool)
    (logSupplied callbackSupplied : Bool) (spawn : SpawnOutcome) : RunResult :=
  let _args := _build_args e command first_run resume
  match spawn with
  | SpawnOutcome.fileNotFound =>
      { result := Except.error (RunError.executionError notFoundMsg),
        newSessionId := e._session_id, logOpenMode := none,
        logWrites := [], callbackCalls := [] }
  | SpawnOutcome.permissionDenied =>
      { result := Except.error (RunError.executionError permissionDeniedMsg),
        newSessionId := e._session_id, logOpenMode := none,
        logWrites := [], callbackCalls := [] }
  | SpawnOutcome.otherError msg =>
      { result := Except.error (RunError.unclassified msg),
        newSessionId := e._session_id, logOpenMode := none,
        logWrites := [], callbackCalls := [] }
  | SpawnOutcome.ok b =>
      let so := readStdoutLoop (e.passthrough && callbackSupplied) logSupplied b.stdoutLines
      let se := readStderrLoop logSupplied b.stderrLines
      let output := String.join so.1
      let error_output := String.join se.1
      let session_id :=
        if first_run && pyTruthy e.session_name then _extract_session_id output else none
      let newSid := if pyTruthy session_id then session_id else e._session_id
      { result := Except.ok
          { output := output, exit_code := b.returncode.getD 0,
            session_id := session_id, error_output := error_output },
        newSessionId := newSid,
        logOpenMode := if logSupplied then some "w" else none,
        logWrites := so.2.2 ++ se.2,
        callbackCalls := so.2.1 }

/- Concrete values used by the witnesses. -/
def sampleExecutor : Executor :=
  { session_name := some "my-session", passthrough := true, _session_id := none }

def sampleResumeExecutor : Executor :=
  { session_name := some "my-session", passthrough := false,
    _session_id := some "abc123def456" }

def sampleBehavior : SpawnBehavior :=
  { stdoutLines := ["line 1\n", "line 2\n"], stderrLines := ["oops\n"],
    returncode := some 0 }

def sampleIdBehavior : SpawnBehavior :=
  { stdoutLines := ["abc123-def456-789\n"], stderrLines := [], returncode := some 0 }

def sampleFailBehavior : SpawnBehavior :=
  { stdoutLines := ["short\n"], stderrLines := [], returncode := some 0 }

/-- C1: with a session name configured (a nonempty name, Python
truthiness), a first_run call builds exactly
[claude, --print, command, --print-session-id], for either value of
resume, so the first_run branch takes precedence; with no session name
configured the argument list is exactly the base
[claude, --print, command] for all combinations of first_run and resume,
so the print-session-id flag is never appended. -/
theorem build_args_first_run (e : Executor) (cmd : String) (fr rs : Bool) :
    (pyTruthy e.session_name = true →
      _build_args e cmd true rs = ["claude", "--print", cmd, "--print-session-id"])
    ∧ (pyTruthy e.session_name = false →
      _build_args e cmd fr rs = ["claude", "--print", cmd]) := by
  constructor <;> intro h <;> simp [_build_args, h]

/-- Witness for C1: both branches evaluated at concrete executors. -/
theorem build_args_first_run_witness :
    pyTruthy sampleExecutor.session_name = true ∧
    _build_args sampleExecutor "hello" true true
      = ["claude", "--print", "hello", "--print-session-id"] :=
  ⟨by decide, (build_args_first_run sampleExecutor "hello" true true).1 (by decide)⟩

/-- C2: with a session name configured and a cached session identifier
(a nonempty cached string, Python truthiness), a resume call with
first_run false builds exactly [claude, --print, command, --session, id]
with id the cached identifier; and any executor without a cached
identifier yields exactly the base [claude, --print, command] on a
resume call. -/
theorem build_args_resume (e : Executor) (cmd sid : String) :
    (pyTruthy e.session_name = true → e._session_id = some sid → sid ≠ "" →
      _build_args e cmd false true = ["claude", "--print", cmd, "--session", sid])
    ∧ (pyTruthy e._session_id = false →
      _build_args e cmd false true = ["claude", "--print", cmd]) := by
  constructor
  · intro h1 h2 h3
    have h4 : pyTruthy (some sid) = true := by
      simp [pyTruthy, h3]
    simp [_build_args, h1, h2, h4]
  · intro h1
    cases h2 : pyTruthy e.session_name <;> simp [_build_args, h1, h2]

/-- Witness for C2: both branches evaluated at concrete executors. -/
theorem build_args_resume_witness :
    _build_args sampleResumeExecutor "hi" false true
      = ["claude", "--print", "hi", "--session", "abc123def456"] ∧
    _build_args sampleExecutor "hi" false true = ["claude", "--print", "hi"] :=
  ⟨(build_args_resume sampleResumeExecutor "hi" "abc123def456").1
      (by decide) rfl (by decide),
   (build_args_resume sampleExecutor "hi" "abc123def456").2 (by decide)⟩

/-- C9: the spawn-failure mapping of run. A missing executable yields an
ExecutionError carrying the not-found message, a permission refusal
yields an ExecutionError carrying the permission-denied message, and any
other spawn failure propagates unclassified, never as an ExecutionError. -/
theorem run_spawn_error_mapping (e : Executor) (cmd : String) (fr rs logS cbS : Bool)
    (msg : String) :
    (run e cmd fr rs logS cbS SpawnOutcome.fileNotFound).result
      = Except.error (RunError.executionError notFoundMsg)
    ∧ (run e cmd fr rs logS cbS SpawnOutcome.permissionDenied).result
      = Except.error (RunError.executionError permissionDeniedMsg)
    ∧ (run e cmd fr rs logS cbS (SpawnOutcome.otherError msg)).result
      = Except.error (RunError.unclassified msg) :=
  ⟨rfl, rfl, rfl⟩

/-- C10: a run call that fails at spawn time with an ExecutionError has
no observable effect: the log file is never opened (so never truncated),
nothing is written to it, the callback is never invoked, and the cached
session identifier is unchanged. -/
theorem run_spawn_failure_no_effect (e : Executor) (cmd : String) (fr rs logS cbS : Bool)
    (spawn : SpawnOutcome)
    (h : spawn = SpawnOutcome.fileNotFound ∨ spawn = SpawnOutcome.permissionDenied) :
    (∃ msg, (run e cmd fr rs logS cbS spawn).result
        = Except.error (RunError.executionError msg))
    ∧ (run e cmd fr rs logS cbS spawn).logOpenMode = none
    ∧ (run e cmd fr rs logS cbS spawn).logWrites = []
    ∧ (run e cmd fr rs logS cbS spawn).callbackCalls = []
    ∧ (run e cmd fr rs logS cbS spawn).newSessionId = e._session_id := by
  rcases h with h | h <;> subst h <;> exact ⟨⟨_, rfl⟩, rfl, rfl, rfl, rfl⟩

/-- Witness for C10: the not-found failure at a concrete run call. -/
theorem run_spawn_failure_no_effect_witness :
    (∃ msg, (run sampleExecutor "hi" true false true true SpawnOutcome.fileNotFound).result
        = Except.error (RunError.executionError msg))
    ∧ (run sampleExecutor "hi" true false true true SpawnOutcome.fileNotFound).logOpenMode = none
    ∧ (run sampleExecutor "hi" true false true true SpawnOutcome.fileNotFound).logWrites = []
    ∧ (run sampleExecutor "hi" true false true true SpawnOutcome.fileNotFound).callbackCalls = []
    ∧ (run sampleExecutor "hi" true false true true SpawnOutcome.fileNotFound).newSessionId
        = sampleExecutor._session_id :=
  run_spawn_failure_no_effect sampleExecutor "hi" true false true true
    SpawnOutcome.fileNotFound (Or.inl rfl)

/- The stdout loop accumulates exactly the lines read, in read order. -/
theorem readStdoutLoop_out (cb logS : Bool) (ls : List String) :
    (readStdoutLoop cb logS ls).1 = ls := by
  induction ls with
  | nil => rfl
  | cons l ls ih => simp [readStdoutLoop, ih]

/- The stdout loop invokes the callback once per line, stripped, exactly
when the callback condition holds. -/
theorem readStdoutLoop_cb (cb logS : Bool) (ls : List String) :
    (readStdoutLoop cb logS ls).2.1 = if cb then ls.map rstripNL else [] := by
  induction ls with
  | nil => cases cb <;> rfl
  | cons l ls ih => cases cb <;> simp_all [readStdoutLoop]

/- The stdout loop writes each raw line to the log exactly when a log
file was supplied. -/
theorem readStdoutLoop_log (cb logS : Bool) (ls : List String) :
    (readStdoutLoop cb logS ls).2.2 = if logS then ls else [] := by
  induction ls with
  | nil => cases logS <;> rfl
  | cons l ls ih => cases logS <;> simp_all [readStdoutLoop]

/- The stderr loop accumulates exactly the lines read, in read order. -/
theorem readStderrLoop_err (logS : Bool) (ls : List String) :
    (readStderrLoop logS ls).1 = ls := by
  induction ls with
  | nil => rfl
  | cons l ls ih => simp [readStderrLoop, ih]

/- The stderr loop writes each line with the stderr marker exactly when
a log file was supplied. -/
theorem readStderrLoop_log (logS : Bool) (ls : List String) :
    (readStderrLoop logS ls).2 = if logS then ls.map (fun l => "[stderr] " ++ l) else [] := by
  induction ls with
  | nil => cases logS <;> rfl
  | cons l ls ih => cases logS <;> simp_all [readStderrLoop]

/-- C6: for every subprocess behaviour, the result of a successful run
has output equal to the concatenation of all stdout lines in read order
and error_output equal to the concatenation of all stderr lines in read
order; the two streams land in separate fields and are never merged. -/
theorem run_output_accumulation (e : Executor) (cmd : String) (fr rs logS cbS : Bool)
    (b : SpawnBehavior) :
    ∃ res, (run e cmd fr rs logS cbS (SpawnOutcome.ok b)).result = Except.ok res
      ∧ res.output = String.join b.stdoutLines
      ∧ res.error_output = String.join b.stderrLines := by
  refine ⟨_, rfl, ?_, ?_⟩ <;>
    simp [run, readStdoutLoop_out, readStderrLoop_err]

/-- C7: when a log file is supplied, a successful run opens it in
truncate-on-write mode (mode w) and its writes are exactly every stdout
line verbatim in read order followed by every stderr line with the
stderr marker in read order, each write flushed individually. -/
theorem run_log_writes (e : Executor) (cmd : String) (fr rs logS cbS : Bool)
    (b : SpawnBehavior) (hlog : logS = true) :
    (run e cmd fr rs logS cbS (SpawnOutcome.ok b)).logWrites
      = b.stdoutLines ++ b.stderrLines.map (fun l => "[stderr] " ++ l)
    ∧ (run e cmd fr rs logS cbS (SpawnOutcome.ok b)).logOpenMode = some "w" := by
  subst hlog
  constructor
  · simp [run, readStdoutLoop_log, readStderrLoop_log]
  · simp [run]

/-- Witness for C7: a concrete run with a log file supplied. -/
theorem run_log_writes_witness :
    (run sampleExecutor "hi" false false true false (SpawnOutcome.ok sampleBehavior)).logWrites
      = sampleBehavior.stdoutLines
        ++ sampleBehavior.stderrLines.map (fun l => "[stderr] " ++ l)
    ∧ (run sampleExecutor "hi" false false true false
        (SpawnOutcome.ok sampleBehavior)).logOpenMode = some "w" :=
  run_log_writes sampleExecutor "hi" false false true false sampleBehavior rfl

/-- C8: the callback invocations of a successful run are exactly one per
stdout line, in read order, with trailing newlines stripped, when
passthrough is enabled and a callback was supplied, and there are none
otherwise; stderr lines never reach the callback. -/
theorem run_callback_calls (e : Executor) (cmd : String) (fr rs logS cbS : Bool)
    (b : SpawnBehavior) :
    (run e cmd fr rs logS cbS (SpawnOutcome.ok b)).callbackCalls
      = if e.passthrough && cbS then b.stdoutLines.map rstripNL else [] := by
  simp [run, readStdoutLoop_cb]

/- Evaluation of the successful-spawn case of run. -/
theorem run_ok_newSessionId (e : Executor) (cmd : String) (fr rs logS cbS : Bool)
    (b : SpawnBehavior) :
    (run e cmd fr rs logS cbS (SpawnOutcome.ok b)).newSessionId
      = if pyTruthy (if fr && pyTruthy e.session_name then
            _extract_session_id (String.join b.stdoutLines) else none) = true then
          (if fr && pyTruthy e.session_name then
            _extract_session_id (String.join b.stdoutLines) else none)
        else e._session_id := by
  show (if pyTruthy (if fr && pyTruthy e.session_name then
          _extract_session_id (String.join
            (readStdoutLoop (e.passthrough && cbS) logS b.stdoutLines).1) else none) = true then
        (if fr && pyTruthy e.session_name then
          _extract_session_id (String.join
            (readStdoutLoop (e.passthrough && cbS) logS b.stdoutLines).1) else none)
      else e._session_id) = _
  rw [readStdoutLoop_out]

/- Whatever the extraction loop returns passed the per-line test. -/
theorem extractGo_candidate (ls : List String) (r : String)
    (h : extractGo ls = some r) : isSessionIdCandidate r = true := by
  induction ls with
  | nil => exact absurd h (by simp [extractGo])
  | cons l ls ih =>
    rw [show extractGo (l :: ls)
        = if isSessionIdCandidate (pyStrip l) then some (pyStrip l) else extractGo ls
      from rfl] at h
    by_cases hc : isSessionIdCandidate (pyStrip l) = true
    · rw [if_pos hc] at h
      cases h
      exact hc
    · rw [if_neg hc] at h
      exact ih h

/-- C5: the cached session identifier is written only when first_run
holds, a session name is configured, the spawn succeeded and extraction
found a candidate in the accumulated stdout: any change implies all of
those; on a successful spawn, if first_run is false, or no session name
is configured, or extraction fails (including a failed extraction on a
first run), the cached identifier is left exactly unchanged; when
first_run holds, a session name is configured and extraction returns a
candidate, the new cached value is exactly that candidate. On the
argument side, the cached identifier enters the built arguments via the
session-selection flag only when resume holds and that identifier is
cached. -/
theorem run_session_cache_invariant (e : Executor) (cmd : String) (fr rs logS cbS : Bool)
    (spawn : SpawnOutcome) (sid : String) :
    ((run e cmd fr rs logS cbS spawn).newSessionId ≠ e._session_id →
      fr = true ∧ pyTruthy e.session_name = true ∧
        ∃ b, spawn = SpawnOutcome.ok b ∧
          (run e cmd fr rs logS cbS spawn).newSessionId
            = _extract_session_id (String.join b.stdoutLines))
    ∧ (∀ b, spawn = SpawnOutcome.ok b →
        (fr = false ∨ pyTruthy e.session_name = false ∨
          _extract_session_id (String.join b.stdoutLines) = none) →
        (run e cmd fr rs logS cbS spawn).newSessionId = e._session_id)
    ∧ (∀ b, spawn = SpawnOutcome.ok b → fr = true → pyTruthy e.session_name = true →
        ∀ s, _extract_session_id (String.join b.stdoutLines) = some s →
          (run e cmd fr rs logS cbS spawn).newSessionId = some s)
    ∧ (_build_args e cmd fr rs = ["claude", "--print", cmd, "--session", sid] →
        rs = true ∧ e._session_id = some sid) := by
  refine ⟨?_, ?_, ?_, ?_⟩
  · intro hne
    cases spawn with
    | fileNotFound => exact absurd rfl hne
    | permissionDenied => exact absurd rfl hne
    | otherError msg => exact absurd rfl hne
    | ok b =>
      rw [run_ok_newSessionId] at hne ⊢
      by_cases hfr : (fr && pyTruthy e.session_name) = true
      · rw [if_pos hfr] at hne ⊢
        rw [Bool.and_eq_true] at hfr
        refine ⟨hfr.1, hfr.2, b, rfl, ?_⟩
        by_cases hp :
            pyTruthy (_extract_session_id (String.join b.stdoutLines)) = true
        · rw [if_pos hp]
        · rw [if_neg hp] at hne
          exact absurd rfl hne
      · rw [if_neg hfr] at hne
        rw [if_neg (by simp [pyTruthy])] at hne
        exact absurd rfl hne
  · intro b hb hcase
    subst hb
    rw [run_ok_newSessionId]
    rcases hcase with h | h | h
    · simp [h, pyTruthy]
    · have hcond : (fr && pyTruthy e.session_name) = false := by
        rw [h, Bool.and_false]
      have hinner : (if fr && pyTruthy e.session_name then
          _extract_session_id (String.join b.stdoutLines) else none) = none := by
        rw [hcond]
        simp
      rw [hinner]
      simp [pyTruthy]
    · simp [h, pyTruthy]
  · intro b hb hf hs s hext
    subst hb
    rw [run_ok_newSessionId]
    have hcand : isSessionIdCandidate s = true :=
      extractGo_candidate (pySplitLines (String.join b.stdoutLines)) s hext
    have hsne : s ≠ "" := by
      intro he
      subst he
      exact absurd hcand (by decide)
    have hfr : (fr && pyTruthy e.session_name) = true := by
      rw [hf, hs]
      rfl
    rw [if_pos hfr, hext]
    rw [if_pos (show pyTruthy (some s) = true by simp [pyTruthy, hsne])]
  · intro h
    cases hsn : pyTruthy e.session_name <;> simp only [_build_args, hsn] at h
    · simp at h
    · cases fr
      · simp only [Bool.false_eq_true, if_false] at h
        cases hri : (rs && pyTruthy e._session_id) <;> simp only [hri] at h
        · simp at h
        · rw [Bool.and_eq_true] at hri
          obtain ⟨hr, hid⟩ := hri
          simp only [if_true] at h
          simp at h
          cases hcached : e._session_id with
          | none => rw [hcached] at hid; exact absurd hid (by simp [pyTruthy])
          | some s =>
            rw [hcached] at h
            simp at h
            exact ⟨hr, by rw [h]⟩
      · simp at h

/-- Witness for C5: a first run whose extraction fails leaves the
cached identifier unchanged, and a first run whose extraction succeeds
caches exactly the extracted identifier. -/
theorem run_session_cache_invariant_witness :
    (run sampleResumeExecutor "hi" true false false false
        (SpawnOutcome.ok sampleFailBehavior)).newSessionId
      = sampleResumeExecutor._session_id
    ∧ (run sampleExecutor "hi" true false false false
        (SpawnOutcome.ok sampleIdBehavior)).newSessionId = some "abc123-def456-789" :=
  ⟨(run_session_cache_invariant sampleResumeExecutor "hi" true false false false
      (SpawnOutcome.ok sampleFailBehavior) "x").2.1 sampleFailBehavior rfl
      (Or.inr (Or.inr (by decide))),
   (run_session_cache_invariant sampleExecutor "hi" true false false false
      (SpawnOutcome.ok sampleIdBehavior) "x").2.2.1 sampleIdBehavior rfl rfl (by decide)
      "abc123-def456-789" (by decide)⟩

/- The per-line predicate exactly as the specification words it: the
trimmed length is strictly between 10 and 100, and every character,
after removing hyphens, is alphanumeric. -/
def specLineIsId (t : String) : Bool :=
  decide (10 < t.length) && decide (t.length < 100)
    && (removeHyphens t).data.all Char.isAlphanum

/- Session-id extraction exactly as the specification words it: the
first line, among the lines of the output split at newlines, each
trimmed, that satisfies specLineIsId. -/
def specExtract (output : String) : Option String :=
  ((pySplitLines output).map pyStrip).find? specLineIsId

/- The amended per-line predicate: additionally, at least one character
must remain after removing the hyphens. -/
def specLineIsIdAmended (t : String) : Bool :=
  specLineIsId t && !(removeHyphens t).data.isEmpty

/- Session-id extraction as amended. -/
def specExtractAmended (output : String) : Option String :=
  ((pySplitLines output).map pyStrip).find? specLineIsIdAmended

/- The amended specification predicate coincides with the test the code
runs on each stripped line. -/
theorem specLineIsIdAmended_eq (t : String) :
    specLineIsIdAmended t = isSessionIdCandidate t := by
  unfold specLineIsIdAmended specLineIsId isSessionIdCandidate pyIsAlnum
  generalize decide (10 < t.length) = a
  generalize decide (t.length < 100) = b
  generalize (removeHyphens t).data.all Char.isAlphanum = c
  generalize (removeHyphens t).data.isEmpty = d
  cases a <;> cases b <;> cases c <;> cases d <;> rfl

/- The extraction loop is a first-match search over the stripped lines. -/
theorem extractGo_eq_find (ls : List String) :
    extractGo ls = (ls.map pyStrip).find? isSessionIdCandidate := by
  induction ls with
  | nil => rfl
  | cons l ls ih =>
    simp only [extractGo, List.map_cons, List.find?_cons]
    cases h : isSessionIdCandidate (pyStrip l)
    · simp [h, ih]
    · simp [h]

/-- C3 counterexample: on the output consisting of one line of eleven
hyphens, extraction as the claim words it returns that line (length 11,
and after removing the hyphens no character is left that could fail to
be alphanumeric), but the code finds no identifier, because the Python
isalnum test is false on the empty string. -/
theorem extract_spec_counterexample :
    specExtract "-----------" = some "-----------"
    ∧ _extract_session_id "-----------" = none := by decide

/-- C3 (amended): extraction returns the first line, among the lines of
the output split at newlines, each trimmed of leading and trailing
whitespace, whose trimmed length is strictly between 10 and 100, in
which every character after removing hyphens is alphanumeric, and from
which at least one character remains after removing hyphens; if no line
qualifies, no identifier is found. -/
theorem extract_matches_spec_amended (output : String) :
    _extract_session_id output = specExtractAmended output := by
  unfold _extract_session_id specExtractAmended
  rw [extractGo_eq_find]
  congr 1
  funext t
  exact (specLineIsIdAmended_eq t).symm

/- A character that is alphanumeric or a hyphen is not whitespace. -/
theorem alnum_or_hyphen_not_ws (c : Char) (h : (c.isAlphanum || c == '-') = true) :
    isPyWhitespace c = false := by
  cases hw : isPyWhitespace c
  · rfl
  · exfalso
    unfold isPyWhitespace at hw
    simp only [Bool.or_eq_true, beq_iff_eq] at hw
    rcases hw with ((((h1 | h1) | h1) | h1) | h1) | h1 <;> subst h1 <;>
      exact absurd h (by decide)

/- dropWhile is the identity when no element satisfies the test. -/
theorem dropWhile_all_not (p q : Char → Bool) (cs : List Char)
    (hall : cs.all q = true) (himp : ∀ c, q c = true → p c = false) :
    cs.dropWhile p = cs := by
  cases cs with
  | nil => rfl
  | cons c cs =>
    have hc : q c = true := List.all_eq_true.mp hall c (List.mem_cons_self c cs)
    simp [List.dropWhile_cons, himp c hc]

/- Stripping a line of alphanumeric-or-hyphen characters changes nothing. -/
theorem pyStrip_of_alnum_hyphen (l : String)
    (h : l.data.all (fun c => c.isAlphanum || c == '-') = true) :
    pyStrip l = l := by
  unfold pyStrip
  rw [dropWhile_all_not isPyWhitespace _ l.data h (fun c hc => alnum_or_hyphen_not_ws c hc)]
  rw [dropWhile_all_not isPyWhitespace (fun c => c.isAlphanum || c == '-') l.data.reverse
    (by simpa using h) (fun c hc => alnum_or_hyphen_not_ws c hc)]
  simp

/- Splitting a character list that holds no newline yields one piece. -/
theorem splitNLAux_no_nl (cs : List Char) (acc : List Char) (h : '\n' ∉ cs) :
    splitNLAux cs acc = [String.mk (acc.reverse ++ cs)] := by
  induction cs generalizing acc with
  | nil => simp [splitNLAux]
  | cons c cs ih =>
    have hc : ¬(c = '\n') := by
      intro hh
      subst hh
      exact h (List.mem_cons_self _ _)
    simp only [splitNLAux]
    rw [if_neg hc]
    rw [ih (c :: acc) (fun hm => h (List.mem_cons_of_mem c hm))]
    simp

/- Splitting a string that holds no newline yields that one line. -/
theorem pySplitLines_no_nl (l : String) (h : '\n' ∉ l.data) :
    pySplitLines l = [l] := by
  unfold pySplitLines
  rw [splitNLAux_no_nl l.data [] h]
  simp

/- A line of 11 to 99 characters, each alphanumeric or a hyphen, with at
least one alphanumeric character, passes the per-line test of the code. -/
theorem candidate_of_alnum_hyphen (l : String)
    (h1 : 11 ≤ l.length) (h2 : l.length ≤ 99)
    (h3 : l.data.all (fun c => c.isAlphanum || c == '-') = true)
    (h4 : l.data.any Char.isAlphanum = true) :
    isSessionIdCandidate l = true := by
  unfold isSessionIdCandidate pyIsAlnum removeHyphens
  obtain ⟨c, hc, hcal⟩ := List.any_eq_true.mp h4
  have hchy : (c == '-') = false := by
    cases hd : (c == '-')
    · rfl
    · exfalso
      have hce : c = '-' := by simpa using hd
      subst hce
      exact absurd hcal (by decide)
  have hmem : c ∈ l.data.filter (fun c => !(c == '-')) :=
    List.mem_filter.mpr ⟨hc, by simp [hchy]⟩
  simp only [Bool.and_eq_true, decide_eq_true_eq, Bool.not_eq_true']
  refine ⟨⟨by omega, by omega⟩, ?_, ?_⟩
  · simp only [List.isEmpty_eq_false]
    exact List.ne_nil_of_mem hmem
  · apply List.all_eq_true.mpr
    intro x hx
    obtain ⟨hxl, hxnd⟩ := List.mem_filter.mp hx
    have hor := List.all_eq_true.mp h3 x hxl
    cases hx1 : x.isAlphanum
    · rw [hx1] at hor
      simp only [Bool.false_or] at hor
      simp [hor] at hxnd
    · rfl

/-- C4 counterexample: the line of eleven hyphens is trimmed, has 11
characters, each alphanumeric or a hyphen, yet the code does not
recognize it: the per-line test fails and extraction of an output
holding exactly this line finds nothing, because removing the hyphens
leaves the empty string, on which the Python isalnum test is false. -/
theorem candidate_hyphens_counterexample :
    (String.length "-----------" = 11
      ∧ ("-----------".data.all (fun c => c.isAlphanum || c == '-')) = true
      ∧ pyStrip "-----------" = "-----------")
    ∧ isSessionIdCandidate "-----------" = false
    ∧ _extract_session_id "-----------" = none := by decide

/-- C4 (amended): every trimmed line of 11 to 99 characters, each
alphanumeric or a hyphen, with at least one alphanumeric character, is
recognized as a session identifier (extraction on that line returns it);
and a line of 9 characters, or a line containing a space, is never
recognized: whatever extraction returns has length unequal to 9 and
holds no space. -/
theorem extract_recognizes_candidates (l output r : String) :
    (11 ≤ l.length → l.length ≤ 99 →
      l.data.all (fun c => c.isAlphanum || c == '-') = true →
      l.data.any Char.isAlphanum = true →
      _extract_session_id l = some l)
    ∧ (_extract_session_id output = some r → r.length ≠ 9 ∧ ' ' ∉ r.data) := by
  constructor
  · intro h1 h2 h3 h4
    have hnl : '\n' ∉ l.data := by
      intro hm
      exact absurd (List.all_eq_true.mp h3 _ hm) (by decide)
    unfold _extract_session_id
    rw [pySplitLines_no_nl l hnl]
    rw [show extractGo [l]
        = if isSessionIdCandidate (pyStrip l) then some (pyStrip l) else extractGo []
      from rfl]
    rw [pyStrip_of_alnum_hyphen l h3]
    rw [if_pos (candidate_of_alnum_hyphen l h1 h2 h3 h4)]
  · intro h
    unfold _extract_session_id at h
    have hcand := extractGo_candidate (pySplitLines output) r h
    unfold isSessionIdCandidate at hcand
    rw [Bool.and_eq_true, Bool.and_eq_true] at hcand
    obtain ⟨⟨hl, _⟩, hal⟩ := hcand
    constructor
    · have := of_decide_eq_true hl
      omega
    · intro hsp
      unfold pyIsAlnum removeHyphens at hal
      rw [Bool.and_eq_true] at hal
      have hmem : ' ' ∈ r.data.filter (fun c => !(c == '-')) := by
        exact List.mem_filter.mpr ⟨hsp, by decide⟩
      have := List.all_eq_true.mp hal.2 _ hmem
      exact absurd this (by decide)

/-- Witness for C4: a concrete 12-character candidate is extracted. -/
theorem extract_recognizes_candidates_witness :
    _extract_session_id "abc123-def45" = some "abc123-def45" :=
  (extract_recognizes_candidates "abc123-def45" "" "").1
    (by decide) (by decide) (by decide) (by decide)

end Claun
